import Mathlib

/-
Shallow embedding of the Bounce demo (src/main.rs).

The simulated quantities are f32 in the source; here they are embedded as
rationals, which model the exact arithmetic the claims speak about
(additions, multiplications, negations and the constant 1000 are all exact
in the embedding, and the order relation on rationals matches the one on
non-NaN floats for these values).

Bodies are pairs of a Transform (the translation part that the systems
touch: x, y, z) and a Velocity (x, y), matching the components joined by
MovementSystem and BounceSystem. The entity store is a list of such pairs.
-/

def ARENA_WIDTH : ℚ := 1000

def ARENA_HEIGHT : ℚ := 1000

structure Transform where
  x : ℚ
  y : ℚ
  z : ℚ
  deriving DecidableEq, Repr

structure Velocity where
  x : ℚ
  y : ℚ
  deriving DecidableEq, Repr

abbrev Body := Transform × Velocity

/-- Embedding of amethyst Transform.prepend_translation_x: translation.x += amount. -/
def prepend_translation_x (t : Transform) (amount : ℚ) : Transform :=
  { t with x := t.x + amount }

/-- Embedding of amethyst Transform.prepend_translation_y: translation.y += amount. -/
def prepend_translation_y (t : Transform) (amount : ℚ) : Transform :=
  { t with y := t.y + amount }

/-- Embedding of amethyst Transform.set_translation_x. -/
def set_translation_x (t : Transform) (a : ℚ) : Transform :=
  { t with x := a }

/-- Embedding of amethyst Transform.set_translation_y. -/
def set_translation_y (t : Transform) (a : ℚ) : Transform :=
  { t with y := a }

/-- Embedding of MovementSystem::run (src/main.rs lines 246-255): for each
joined (transform, velocity) pair, prepend velocity.x * delta_seconds to the
x translation and velocity.y * delta_seconds to the y translation. -/
def MovementSystem.run (delta_seconds : ℚ) (store : List Body) : List Body :=
  store.map (fun tv =>
    (prepend_translation_y
        (prepend_translation_x tv.1 (tv.2.x * delta_seconds))
        (tv.2.y * delta_seconds),
     tv.2))

/-- Embedding of the loop body of BounceSystem::run (src/main.rs lines
266-293): current_y and current_x are read once at the top, then the four
boundary tests run in source order (y high, y low, x high, x low), each
clamping the translation and negating the corresponding velocity component
when its cached coordinate is out of range. -/
def bounceBody (tv : Body) : Body :=
  let current_y := tv.1.y
  let current_x := tv.1.x
  let tv1 :=
    if ARENA_HEIGHT ≤ current_y then
      (set_translation_y tv.1 (ARENA_HEIGHT - 1), { tv.2 with y := -tv.2.y })
    else tv
  let tv2 :=
    if current_y ≤ 0 then
      (set_translation_y tv1.1 0, { tv1.2 with y := -tv1.2.y })
    else tv1
  let tv3 :=
    if ARENA_WIDTH ≤ current_x then
      (set_translation_x tv2.1 (ARENA_WIDTH - 1), { tv2.2 with x := -tv2.2.x })
    else tv2
  let tv4 :=
    if current_x ≤ 0 then
      (set_translation_x tv3.1 0, { tv3.2 with x := -tv3.2.x })
    else tv3
  tv4

/-- Embedding of BounceSystem::run: the loop over the joined storage. -/
def BounceSystem.run (store : List Body) : List Body :=
  store.map bounceBody

/-- Embedding of the ExampleGraph struct (src/main.rs lines 87-92):
dimensions caches the last observed screen size, surface_format caches the
surface format chosen by builder (its value is irrelevant here, only
whether it has been set), dirty is the debounce flag. Default state has
both caches empty and dirty false. -/
structure ExampleGraph where
  dimensions : Option (ℚ × ℚ)
  surface_format : Option Unit
  dirty : Bool
  deriving DecidableEq, Repr

def ExampleGraph.default : ExampleGraph :=
  { dimensions := none, surface_format := none, dirty := false }

/-- Embedding of ExampleGraph::rebuild (src/main.rs lines 95-105): if the
freshly fetched dimensions differ from the cached ones, set dirty, store
the new dimensions and return false; otherwise return the dirty flag. -/
def ExampleGraph.rebuild (g : ExampleGraph) (new_dimensions : Option (ℚ × ℚ)) :
    ExampleGraph × Bool :=
  if g.dimensions ≠ new_dimensions then
    ({ g with dirty := true, dimensions := new_dimensions }, false)
  else
    (g, g.dirty)

/-- Embedding of the state effect of ExampleGraph::builder (src/main.rs
lines 107-157): it clears dirty and fills the surface_format cache; the
graph it returns is render machinery outside the claims. -/
def ExampleGraph.builderStep (g : ExampleGraph) : ExampleGraph :=
  { g with dirty := false, surface_format := some () }

/-- Modelled from the spec: the host render loop (RenderingSystem, engine
code outside src) calls rebuild once per tick with the current screen size
and invokes builder, rebuilding the render graph and camera state, exactly
when rebuild returns true. The returned Bool records whether this tick
rebuilt. -/
def tickGraph (g : ExampleGraph) (s : ℚ × ℚ) : ExampleGraph × Bool :=
  let r := g.rebuild (some s)
  if r.2 then (r.1.builderStep, true) else (r.1, false)

/-- Runs tickGraph over a sequence of observed sizes, returning the final
state and the per-tick rebuild flags. -/
def runGraph (g : ExampleGraph) : List (ℚ × ℚ) → ExampleGraph × List Bool
  | [] => (g, [])
  | s :: rest =>
    let r := tickGraph g s
    let rr := runGraph r.1 rest
    (rr.1, r.2 :: rr.2)

/-- Embedding of the spawn loop in State::on_start (src/main.rs lines
184-209), generalized over the hardcoded constants (count 50000, arena
1000 x 1000, velocity range 50) to the interface the spec calls
spawn_bodies. Each body gets translation (width / 2, height / 2, 0) and a
velocity whose components are the next two samples of the random stream;
rng i lo hi stands for the i-th call to Rng::gen_range(lo, hi), which
samples from the half-open interval [lo, hi). -/
def spawn_bodies (count : ℕ) (width height velocity_range : ℚ)
    (rng : ℕ → ℚ → ℚ → ℚ) : List Body :=
  (List.range count).map (fun i =>
    ({ x := width / 2, y := height / 2, z := 0 },
     { x := rng (2 * i) (-velocity_range) velocity_range,
       y := rng (2 * i + 1) (-velocity_range) velocity_range }))

/-- The spawn exactly as the source performs it, with its hardcoded
constants. -/
def on_start_bodies (rng : ℕ → ℚ → ℚ → ℚ) : List Body :=
  spawn_bodies 50000 ARENA_WIDTH ARENA_HEIGHT 50 rng

/-- Modelled from the spec: the Frame Scheduler fires the Motion Integrator
(MovementSystem) and then the Boundary Reflector (BounceSystem) once per
tick, with the integrator finished before the reflector starts. The
dispatcher realizing this ordering is engine code outside src; BounceBundle
(src/main.rs lines 77-85) registers MovementSystem before BounceSystem. -/
def tickSim (delta_seconds : ℚ) (store : List Body) : List Body :=
  BounceSystem.run (MovementSystem.run delta_seconds store)

/-- Spec-level single-axis reflection: clamp to extent - 1 and negate on
the high side, clamp to 0 and negate on the low side, identity strictly
inside. Used to state that bounceBody acts on the axes independently. -/
def reflectAxis (extent p v : ℚ) : ℚ × ℚ :=
  if extent ≤ p then (extent - 1, -v)
  else if p ≤ 0 then (0, -v)
  else (p, v)

lemma reflectAxis_high (extent p v : ℚ) (h : extent ≤ p) :
    reflectAxis extent p v = (extent - 1, -v) := by
  simp [reflectAxis, h]

lemma reflectAxis_low (extent p v : ℚ) (h0 : 0 < extent) (h : p ≤ 0) :
    reflectAxis extent p v = (0, -v) := by
  have hne : ¬ extent ≤ p := by linarith
  simp [reflectAxis, hne, h]

lemma reflectAxis_inside (extent p v : ℚ) (h0 : 0 < p) (h1 : p < extent) :
    reflectAxis extent p v = (p, v) := by
  have hne : ¬ extent ≤ p := by linarith
  have hne0 : ¬ p ≤ 0 := by linarith
  simp [reflectAxis, hne, hne0]

/-- The loop body of BounceSystem::run acts on the two axes independently:
it equals the spec-level per-axis reflection applied to x with extent
ARENA_WIDTH and to y with extent ARENA_HEIGHT, with z untouched. -/
lemma bounceBody_axiswise (t : Transform) (v : Velocity) :
    bounceBody (t, v) =
      ({ x := (reflectAxis ARENA_WIDTH t.x v.x).1,
         y := (reflectAxis ARENA_HEIGHT t.y v.y).1, z := t.z },
       { x := (reflectAxis ARENA_WIDTH t.x v.x).2,
         y := (reflectAxis ARENA_HEIGHT t.y v.y).2 }) := by
  have hW : (0:ℚ) < ARENA_WIDTH := by norm_num [ARENA_WIDTH]
  have hH : (0:ℚ) < ARENA_HEIGHT := by norm_num [ARENA_HEIGHT]
  unfold bounceBody reflectAxis set_translation_x set_translation_y
  dsimp only
  split_ifs with h1 h2 h3 h4 <;> first
    | rfl
    | (exfalso; linarith)

/-- C1: Boundary Reflector per-axis contract. For every body and each axis
independently: a coordinate at or beyond its extent is set to extent - 1
with that velocity component negated; a coordinate at or below 0 is set to
0 with that velocity component negated; a coordinate strictly inside
(0, extent) keeps both its position and its velocity component. -/
theorem bounce_per_axis_contract (t : Transform) (v : Velocity) :
    (ARENA_WIDTH ≤ t.x →
      (bounceBody (t, v)).1.x = ARENA_WIDTH - 1 ∧ (bounceBody (t, v)).2.x = -v.x) ∧
    (t.x ≤ 0 →
      (bounceBody (t, v)).1.x = 0 ∧ (bounceBody (t, v)).2.x = -v.x) ∧
    (0 < t.x → t.x < ARENA_WIDTH →
      (bounceBody (t, v)).1.x = t.x ∧ (bounceBody (t, v)).2.x = v.x) ∧
    (ARENA_HEIGHT ≤ t.y →
      (bounceBody (t, v)).1.y = ARENA_HEIGHT - 1 ∧ (bounceBody (t, v)).2.y = -v.y) ∧
    (t.y ≤ 0 →
      (bounceBody (t, v)).1.y = 0 ∧ (bounceBody (t, v)).2.y = -v.y) ∧
    (0 < t.y → t.y < ARENA_HEIGHT →
      (bounceBody (t, v)).1.y = t.y ∧ (bounceBody (t, v)).2.y = v.y) := by
  have hW : (0:ℚ) < ARENA_WIDTH := by norm_num [ARENA_WIDTH]
  have hH : (0:ℚ) < ARENA_HEIGHT := by norm_num [ARENA_HEIGHT]
  rw [bounceBody_axiswise]
  refine ⟨fun h => ?_, fun h => ?_, fun h h2 => ?_, fun h => ?_, fun h => ?_, fun h h2 => ?_⟩ <;>
    dsimp
  · rw [reflectAxis_high _ _ _ h]; exact ⟨rfl, rfl⟩
  · rw [reflectAxis_low _ _ _ hW h]; exact ⟨rfl, rfl⟩
  · rw [reflectAxis_inside _ _ _ h h2]; exact ⟨rfl, rfl⟩
  · rw [reflectAxis_high _ _ _ h]; exact ⟨rfl, rfl⟩
  · rw [reflectAxis_low _ _ _ hH h]; exact ⟨rfl, rfl⟩
  · rw [reflectAxis_inside _ _ _ h h2]; exact ⟨rfl, rfl⟩

/-- C1 witness: the contract evaluated on a body beyond the x extent and
below 0 in y, and on a body strictly inside on both axes. -/
theorem bounce_per_axis_contract_witness :
    ((bounceBody ({ x := 1005, y := -3, z := 0 }, { x := 7, y := 5 })).1.x = ARENA_WIDTH - 1 ∧
     (bounceBody ({ x := 1005, y := -3, z := 0 }, { x := 7, y := 5 })).2.x = -(7:ℚ)) ∧
    ((bounceBody ({ x := 1005, y := -3, z := 0 }, { x := 7, y := 5 })).1.y = 0 ∧
     (bounceBody ({ x := 1005, y := -3, z := 0 }, { x := 7, y := 5 })).2.y = -(5:ℚ)) ∧
    ((bounceBody ({ x := 3, y := 4, z := 0 }, { x := 7, y := 5 })).1.x = 3 ∧
     (bounceBody ({ x := 3, y := 4, z := 0 }, { x := 7, y := 5 })).2.x = 7) ∧
    ((bounceBody ({ x := 3, y := 4, z := 0 }, { x := 7, y := 5 })).1.y = 4 ∧
     (bounceBody ({ x := 3, y := 4, z := 0 }, { x := 7, y := 5 })).2.y = 5) := by
  have h1 := bounce_per_axis_contract { x := 1005, y := -3, z := 0 } { x := 7, y := 5 }
  have h2 := bounce_per_axis_contract { x := 3, y := 4, z := 0 } { x := 7, y := 5 }
  exact ⟨h1.1 (by norm_num [ARENA_WIDTH]),
         h1.2.2.2.2.1 (by norm_num),
         h2.2.2.1 (by norm_num) (by norm_num [ARENA_WIDTH]),
         h2.2.2.2.2.2 (by norm_num) (by norm_num [ARENA_HEIGHT])⟩

/-- C2: Motion Integrator contract. For any delta_seconds at least 0, one
pass maps every body to position plus velocity times delta_seconds
componentwise with velocity unchanged, and delta_seconds equal to 0 leaves
the store unchanged. -/
theorem movement_contract (delta_seconds : ℚ) (store : List Body)
    (_hdt : 0 ≤ delta_seconds) :
    MovementSystem.run delta_seconds store =
      store.map (fun tv =>
        ({ x := tv.1.x + tv.2.x * delta_seconds,
           y := tv.1.y + tv.2.y * delta_seconds, z := tv.1.z }, tv.2)) ∧
    MovementSystem.run 0 store = store := by
  constructor
  · rfl
  · induction store with
    | nil => rfl
    | cons hd tl ih =>
      obtain ⟨⟨x, y, z⟩, v⟩ := hd
      simp only [MovementSystem.run, List.map_cons, prepend_translation_x,
        prepend_translation_y] at ih ⊢
      simp [ih]

/-- C2 witness: the integrator evaluated at delta_seconds 2 and 0 on a
concrete one-body store. -/
theorem movement_contract_witness :
    MovementSystem.run 2 [({ x := 1, y := 2, z := 3 }, { x := 4, y := 5 })] =
      [({ x := 9, y := 12, z := 3 }, { x := 4, y := 5 })] ∧
    MovementSystem.run 0 [({ x := 1, y := 2, z := 3 }, { x := 4, y := 5 })] =
      [({ x := 1, y := 2, z := 3 }, { x := 4, y := 5 })] := by
  have h := movement_contract 2 [({ x := 1, y := 2, z := 3 }, { x := 4, y := 5 })]
    (by norm_num)
  refine ⟨?_, h.2⟩
  rw [h.1]
  norm_num

/-- C3: Viewport Tracker debounce. From the initial unset state, the size
sequence A, B, B with A different from B rebuilds exactly once, on the
third tick (the second B) and on no earlier tick; and on any tick whose
freshly observed size differs from the stored one, rebuild records the new
size, sets dirty, and reports no rebuild for that tick. -/
theorem viewport_debounce (A B : ℚ × ℚ) (hAB : A ≠ B) :
    (runGraph ExampleGraph.default [A, B, B]).2 = [false, false, true] ∧
    (∀ (g : ExampleGraph) (s : ℚ × ℚ), g.dimensions ≠ some s →
      g.rebuild (some s) =
        ({ dimensions := some s, surface_format := g.surface_format,
           dirty := true }, false)) := by
  constructor
  · have hA : (ExampleGraph.default.dimensions ≠ some A) := by
      simp [ExampleGraph.default]
    simp [runGraph, tickGraph, ExampleGraph.rebuild, ExampleGraph.builderStep,
      ExampleGraph.default, hAB]
  · intro g s h
    simp [ExampleGraph.rebuild, h]

/-- C3 witness: the debounce evaluated on the concrete sizes 800 x 600 and
1024 x 768. -/
theorem viewport_debounce_witness :
    (runGraph ExampleGraph.default [(800, 600), (1024, 768), (1024, 768)]).2 =
      [false, false, true] ∧
    ExampleGraph.default.rebuild (some (800, 600)) =
      ({ dimensions := some (800, 600), surface_format := none,
         dirty := true }, false) := by
  have h := viewport_debounce (800, 600) (1024, 768) (by norm_num)
  exact ⟨h.1, h.2 ExampleGraph.default (800, 600) (by simp [ExampleGraph.default])⟩

/-- C4: per-tick pass ordering. A tick first runs the full Motion
Integrator pass and only then the Boundary Reflector, so every boundary
test inside the tick is applied to the post-integration coordinates
position plus velocity times delta_seconds, never to the pre-integration
ones. -/
theorem tick_ordering (delta_seconds : ℚ) (store : List Body) :
    tickSim delta_seconds store =
      store.map (fun tv =>
        bounceBody ({ x := tv.1.x + tv.2.x * delta_seconds,
                      y := tv.1.y + tv.2.y * delta_seconds,
                      z := tv.1.z }, tv.2)) := by
  simp only [tickSim, BounceSystem.run, MovementSystem.run, List.map_map]
  rfl

/-- C5: spawn invariant. Spawning count bodies with a positive velocity
range from a random stream satisfying the gen_range contract produces
exactly count bodies, each at the arena center (width / 2, height / 2) and
with both velocity components in the closed interval from -range to
range. -/
theorem spawn_invariant (count : ℕ) (width height velocity_range : ℚ)
    (rng : ℕ → ℚ → ℚ → ℚ) (hr : 0 < velocity_range)
    (hrng : ∀ i lo hi, lo < hi → lo ≤ rng i lo hi ∧ rng i lo hi < hi) :
    (spawn_bodies count width height velocity_range rng).length = count ∧
    ∀ b ∈ spawn_bodies count width height velocity_range rng,
      b.1 = { x := width / 2, y := height / 2, z := 0 } ∧
      -velocity_range ≤ b.2.x ∧ b.2.x ≤ velocity_range ∧
      -velocity_range ≤ b.2.y ∧ b.2.y ≤ velocity_range := by
  have hlo : -velocity_range < velocity_range := by linarith
  constructor
  · simp [spawn_bodies]
  · intro b hb
    simp only [spawn_bodies, List.mem_map, List.mem_range] at hb
    obtain ⟨i, _, rfl⟩ := hb
    have h1 := hrng (2 * i) (-velocity_range) velocity_range hlo
    have h2 := hrng (2 * i + 1) (-velocity_range) velocity_range hlo
    exact ⟨rfl, h1.1, h1.2.le, h2.1, h2.2.le⟩

/-- C5 witness: the invariant evaluated at count 2, a 10 x 20 arena, range
1, and the random stream that always returns the lower bound; the produced
first body is checked concretely. -/
theorem spawn_invariant_witness :
    0 < (1:ℚ) ∧
    (spawn_bodies 2 10 20 1 (fun _ lo _ => lo)).length = 2 ∧
    ((({ x := 5, y := 10, z := 0 }, { x := -1, y := -1 }) : Body).1 =
        { x := (10:ℚ) / 2, y := (20:ℚ) / 2, z := 0 } ∧
      -(1:ℚ) ≤ (({ x := 5, y := 10, z := 0 }, { x := -1, y := -1 }) : Body).2.x ∧
      (({ x := 5, y := 10, z := 0 }, { x := -1, y := -1 }) : Body).2.x ≤ 1 ∧
      -(1:ℚ) ≤ (({ x := 5, y := 10, z := 0 }, { x := -1, y := -1 }) : Body).2.y ∧
      (({ x := 5, y := 10, z := 0 }, { x := -1, y := -1 }) : Body).2.y ≤ 1) := by
  have h := spawn_invariant 2 10 20 1 (fun _ lo _ => lo) (by norm_num)
    (fun i lo hi hlt => ⟨le_refl lo, hlt⟩)
  refine ⟨by norm_num, h.1,
    h.2 ({ x := 5, y := 10, z := 0 }, { x := -1, y := -1 }) ?_⟩
  norm_num [spawn_bodies, List.range_succ]

/-- C6: reflector idempotence after an upper-bound clamp. A body at x equal
to width + 5 with positive x velocity and y strictly inside is clamped to
width - 1 with its x velocity negated, and an immediate second reflector
pass changes nothing. -/
theorem bounce_upper_clamp_idem (v vy y z : ℚ) (_hv : 0 < v) (hy0 : 0 < y)
    (hyH : y < ARENA_HEIGHT) :
    bounceBody ({ x := ARENA_WIDTH + 5, y := y, z := z }, { x := v, y := vy }) =
      ({ x := ARENA_WIDTH - 1, y := y, z := z }, { x := -v, y := vy }) ∧
    bounceBody
        (bounceBody ({ x := ARENA_WIDTH + 5, y := y, z := z }, { x := v, y := vy })) =
      bounceBody ({ x := ARENA_WIDTH + 5, y := y, z := z }, { x := v, y := vy }) := by
  have hxhigh : ARENA_WIDTH ≤ ARENA_WIDTH + 5 := by linarith
  have hW1 : (0:ℚ) < ARENA_WIDTH - 1 := by norm_num [ARENA_WIDTH]
  have hW2 : ARENA_WIDTH - 1 < ARENA_WIDTH := by norm_num [ARENA_WIDTH]
  have h1 :
      bounceBody ({ x := ARENA_WIDTH + 5, y := y, z := z }, { x := v, y := vy }) =
        ({ x := ARENA_WIDTH - 1, y := y, z := z }, { x := -v, y := vy }) := by
    rw [bounceBody_axiswise]
    dsimp
    rw [reflectAxis_high _ _ _ hxhigh, reflectAxis_inside _ _ _ hy0 hyH]
  refine ⟨h1, ?_⟩
  rw [h1, bounceBody_axiswise]
  dsimp
  rw [reflectAxis_inside _ _ _ hW1 hW2, reflectAxis_inside _ _ _ hy0 hyH]

/-- C6 witness: the idempotence evaluated at v 1, vy 2, y 500, z 0. -/
theorem bounce_upper_clamp_idem_witness :
    bounceBody ({ x := ARENA_WIDTH + 5, y := 500, z := 0 }, { x := 1, y := 2 }) =
      ({ x := ARENA_WIDTH - 1, y := 500, z := 0 }, { x := -1, y := 2 }) ∧
    bounceBody
        (bounceBody ({ x := ARENA_WIDTH + 5, y := 500, z := 0 }, { x := 1, y := 2 })) =
      bounceBody ({ x := ARENA_WIDTH + 5, y := 500, z := 0 }, { x := 1, y := 2 }) :=
  bounce_upper_clamp_idem 1 2 500 0 (by norm_num) (by norm_num)
    (by norm_num [ARENA_HEIGHT])

/-- C7: combined-axis violation. A body out of bounds on both axes at once
has, in a single pass, both velocity components negated and both
coordinates clamped to the side each violated; no axis is skipped. -/
theorem bounce_combined_axes (t : Transform) (v : Velocity)
    (hx : ARENA_WIDTH ≤ t.x ∨ t.x ≤ 0) (hy : ARENA_HEIGHT ≤ t.y ∨ t.y ≤ 0) :
    (bounceBody (t, v)).2.x = -v.x ∧ (bounceBody (t, v)).2.y = -v.y ∧
    (bounceBody (t, v)).1.x = (if ARENA_WIDTH ≤ t.x then ARENA_WIDTH - 1 else 0) ∧
    (bounceBody (t, v)).1.y = (if ARENA_HEIGHT ≤ t.y then ARENA_HEIGHT - 1 else 0) := by
  have hW : (0:ℚ) < ARENA_WIDTH := by norm_num [ARENA_WIDTH]
  have hH : (0:ℚ) < ARENA_HEIGHT := by norm_num [ARENA_HEIGHT]
  rw [bounceBody_axiswise]
  dsimp
  rcases hx with hx | hx
  · rw [reflectAxis_high _ _ _ hx, if_pos hx]
    rcases hy with hy | hy
    · rw [reflectAxis_high _ _ _ hy, if_pos hy]
      exact ⟨rfl, rfl, rfl, rfl⟩
    · have hyn : ¬ ARENA_HEIGHT ≤ t.y := by linarith
      rw [reflectAxis_low _ _ _ hH hy, if_neg hyn]
      exact ⟨rfl, rfl, rfl, rfl⟩
  · have hxn : ¬ ARENA_WIDTH ≤ t.x := by linarith
    rw [reflectAxis_low _ _ _ hW hx, if_neg hxn]
    rcases hy with hy | hy
    · rw [reflectAxis_high _ _ _ hy, if_pos hy]
      exact ⟨rfl, rfl, rfl, rfl⟩
    · have hyn : ¬ ARENA_HEIGHT ≤ t.y := by linarith
      rw [reflectAxis_low _ _ _ hH hy, if_neg hyn]
      exact ⟨rfl, rfl, rfl, rfl⟩

/-- C7 witness: the combined correction evaluated on a body beyond the x
extent and below the y floor. -/
theorem bounce_combined_axes_witness :
    (bounceBody ({ x := 1200, y := -5, z := 0 }, { x := 3, y := 4 })).2.x = -3 ∧
    (bounceBody ({ x := 1200, y := -5, z := 0 }, { x := 3, y := 4 })).2.y = -4 ∧
    (bounceBody ({ x := 1200, y := -5, z := 0 }, { x := 3, y := 4 })).1.x =
      ARENA_WIDTH - 1 ∧
    (bounceBody ({ x := 1200, y := -5, z := 0 }, { x := 3, y := 4 })).1.y = 0 := by
  have h := bounce_combined_axes { x := 1200, y := -5, z := 0 } { x := 3, y := 4 }
    (Or.inl (by norm_num [ARENA_WIDTH])) (Or.inr (by norm_num))
  refine ⟨h.1, h.2.1, ?_, ?_⟩
  · rw [h.2.2.1]
    norm_num [ARENA_WIDTH]
  · rw [h.2.2.2]
    norm_num [ARENA_HEIGHT]

/-- C8 counterexample: spawning with zero arena extents is not rejected.
The spawn path is a total function with no error type; at count 1, width 0,
height 0 and range 1 (with the stream returning the lower bound) it returns
a normal one-body simulation state at (0, 0) instead of a construction
error. -/
theorem spawn_zero_extent_produces_state :
    spawn_bodies 1 0 0 1 (fun _ lo _ => lo) =
      [({ x := 0, y := 0, z := 0 }, { x := -1, y := -1 })] ∧
    (spawn_bodies 1 0 0 1 (fun _ lo _ => lo)).length = 1 := by
  constructor <;> norm_num [spawn_bodies, List.range_succ]

/-- C8 amended: the spawn path performs no configuration validation and
cannot fail: for every count, arena extents (zero and negative included)
and range it returns exactly count bodies, each placed at
(width / 2, height / 2). In the shipped code the configuration is the
hardcoded positive constants 1000 x 1000 and 50000, so an invalid
configuration cannot arise there. -/
theorem spawn_never_rejects (count : ℕ) (width height velocity_range : ℚ)
    (rng : ℕ → ℚ → ℚ → ℚ) :
    (spawn_bodies count width height velocity_range rng).length = count ∧
    ∀ b ∈ spawn_bodies count width height velocity_range rng,
      b.1 = { x := width / 2, y := height / 2, z := 0 } := by
  constructor
  · simp [spawn_bodies]
  · intro b hb
    simp only [spawn_bodies, List.mem_map, List.mem_range] at hb
    obtain ⟨i, _, rfl⟩ := hb
    rfl

/-- C9: the lower-bound branch is not idempotent. A body with x exactly 0
(the value the lower clamp itself produces) matches the lower test on every
pass: one pass keeps x at 0 and negates the x velocity, a second immediate
pass negates it back, restoring the original body; by contrast, after an
upper-bound clamp a second pass is a no-op. -/
theorem bounce_lower_not_idem (y z vx vy : ℚ) (hy0 : 0 < y)
    (hyH : y < ARENA_HEIGHT) :
    bounceBody ({ x := 0, y := y, z := z }, { x := vx, y := vy }) =
      ({ x := 0, y := y, z := z }, { x := -vx, y := vy }) ∧
    bounceBody (bounceBody ({ x := 0, y := y, z := z }, { x := vx, y := vy })) =
      ({ x := 0, y := y, z := z }, { x := vx, y := vy }) ∧
    (∀ x0 : ℚ, ARENA_WIDTH ≤ x0 →
      bounceBody (bounceBody ({ x := x0, y := y, z := z }, { x := vx, y := vy })) =
        bounceBody ({ x := x0, y := y, z := z }, { x := vx, y := vy })) := by
  have hW : (0:ℚ) < ARENA_WIDTH := by norm_num [ARENA_WIDTH]
  have hW1 : (0:ℚ) < ARENA_WIDTH - 1 := by norm_num [ARENA_WIDTH]
  have hW2 : ARENA_WIDTH - 1 < ARENA_WIDTH := by norm_num [ARENA_WIDTH]
  have hlow : ∀ w : ℚ,
      bounceBody ({ x := 0, y := y, z := z }, { x := w, y := vy }) =
        ({ x := 0, y := y, z := z }, { x := -w, y := vy }) := by
    intro w
    rw [bounceBody_axiswise]
    dsimp
    rw [reflectAxis_low _ _ _ hW le_rfl, reflectAxis_inside _ _ _ hy0 hyH]
  refine ⟨hlow vx, ?_, ?_⟩
  · rw [hlow vx, hlow (-vx), neg_neg]
  · intro x0 hx0
    have h1 :
        bounceBody ({ x := x0, y := y, z := z }, { x := vx, y := vy }) =
          ({ x := ARENA_WIDTH - 1, y := y, z := z }, { x := -vx, y := vy }) := by
      rw [bounceBody_axiswise]
      dsimp
      rw [reflectAxis_high _ _ _ hx0, reflectAxis_inside _ _ _ hy0 hyH]
    rw [h1, bounceBody_axiswise]
    dsimp
    rw [reflectAxis_inside _ _ _ hW1 hW2, reflectAxis_inside _ _ _ hy0 hyH]

/-- C9 witness: the non-idempotence evaluated at y 500, z 0, vx 3, vy 4,
with the upper-bound contrast instantiated at x 1005. -/
theorem bounce_lower_not_idem_witness :
    bounceBody ({ x := 0, y := 500, z := 0 }, { x := 3, y := 4 }) =
      ({ x := 0, y := 500, z := 0 }, { x := -3, y := 4 }) ∧
    bounceBody (bounceBody ({ x := 0, y := 500, z := 0 }, { x := 3, y := 4 })) =
      ({ x := 0, y := 500, z := 0 }, { x := 3, y := 4 }) ∧
    bounceBody (bounceBody ({ x := 1005, y := 500, z := 0 }, { x := 3, y := 4 })) =
      bounceBody ({ x := 1005, y := 500, z := 0 }, { x := 3, y := 4 }) := by
  have h := bounce_lower_not_idem 500 0 3 4 (by norm_num) (by norm_num [ARENA_HEIGHT])
  exact ⟨h.1, h.2.1, h.2.2 1005 (by norm_num [ARENA_WIDTH])⟩

/-- C10: containment invariant. After a Boundary Reflector pass, every body
has both coordinates in the half-open range from 0 inclusive to the 1000
extent exclusive, wherever integration had put it; the rational embedding
carries no NaN, so the non-NaN proviso of the claim is automatic. -/
theorem bounce_containment (tv : Body) :
    0 ≤ (bounceBody tv).1.x ∧ (bounceBody tv).1.x < ARENA_WIDTH ∧
    0 ≤ (bounceBody tv).1.y ∧ (bounceBody tv).1.y < ARENA_HEIGHT := by
  obtain ⟨t, v⟩ := tv
  have hW : (1:ℚ) ≤ ARENA_WIDTH := by norm_num [ARENA_WIDTH]
  have hH : (1:ℚ) ≤ ARENA_HEIGHT := by norm_num [ARENA_HEIGHT]
  have key : ∀ extent p w : ℚ, 1 ≤ extent →
      0 ≤ (reflectAxis extent p w).1 ∧ (reflectAxis extent p w).1 < extent := by
    intro extent p w he
    unfold reflectAxis
    split_ifs with h1 h2
    · constructor <;> dsimp <;> linarith
    · constructor <;> dsimp <;> linarith
    · push_neg at h1 h2
      exact ⟨h2.le, h1⟩
  rw [bounceBody_axiswise]
  dsimp
  obtain ⟨hx0, hx1⟩ := key ARENA_WIDTH t.x v.x hW
  obtain ⟨hy0, hy1⟩ := key ARENA_HEIGHT t.y v.y hH
  exact ⟨hx0, hx1, hy0, hy1⟩
